import Mathlib

/-!
Verification development for the SMTP-handshake email verification engine
(`email_verifier.py`): the function `verify_email` (syntax gate, MX
resolution, host iteration, aggregation) and the function `smtp_check`
(one TCP connection, SMTP dialogue, response classification).

The embedding is a shallow one:

* Python strings are `List Char`; `str.startswith`, `str.strip`,
  `str.rstrip('.')`, slicing `s[:3]` and `email.split('@')[1]` are embedded
  as the corresponding list functions below.
* The network is an oracle: a `HostScript` fixes, for one host, the result
  of every socket operation the conversation can perform (each `send` and
  each `recv` either succeeds — for `recv`, with the bytes the server
  answers — or raises one of the exceptions the code catches:
  `socket.timeout`, `socket.error`, or any other `Exception`).
* DNS resolution is an oracle `DnsResult` fixing what
  `dns.resolver.resolve(domain, 'MX')` does: return records, or raise
  `NoAnswer` / `NXDOMAIN` / `NoNameservers` / some other exception
  (`dns.exception.Timeout`, i.e. a resolver lifetime timeout, falls in the
  last constructor, since the code's first `except` clause names only the
  former three classes).
* Control flow, including Python `try/except` jumps, is made explicit:
  every leaf of the interpreters records the returned dictionary, the
  trace of externally visible socket actions performed (connection
  established, command successfully written, socket closed), and which
  exception — if any — reached the `except` handlers.
* The random synthetic local-part (20 lowercase letters) only affects the
  bytes written on the wire, never the control flow, so it is not a
  parameter of the model; the synthetic RCPT command is the `rcptFake`
  action of the trace.
-/

/-! ## Python string primitives -/

/-- Python `s.startswith(p)` on code-point lists. -/
def pyStartsWith : List Char → List Char → Bool
  | _, [] => true
  | [], _ :: _ => false
  | c :: s, p :: ps => c == p && pyStartsWith s ps

/-- Python `s.strip()`: whitespace removed from both ends. -/
def pyStrip (s : List Char) : List Char :=
  ((s.dropWhile Char.isWhitespace).reverse.dropWhile Char.isWhitespace).reverse

/-- Python `s.rstrip('.')`: all trailing dots removed. -/
def rstripDot (s : List Char) : List Char :=
  (s.reverse.dropWhile (fun c => c == '.')).reverse

/-- The segment of `s` after the first `'@'` and before any next `'@'`:
Python `s.split('@')[1]`.  (When `s` has no `'@'` Python would raise
`IndexError`; the call site is guarded by the syntax gate, which only
lets strings containing `'@'` through — see `verify_email_no_raise`.) -/
def afterFirstAt : List Char → List Char
  | [] => []
  | '@' :: rest => rest.takeWhile (fun c => c != '@')
  | _ :: rest => afterFirstAt rest

/-- `domain = email.split('@')[1]` from the source. -/
def domainOf (email : List Char) : List Char := afterFirstAt email

/-! ## The syntax gate

Source: `email_regex = r'^[a-zA-Z0-9._%+-]+@[a-zA-Z0-9.-]+\.[a-zA-Z]{2,}$'`
checked with `re.match`.  A string matches iff it decomposes as
`A ++ '@' ++ B ++ '.' ++ C` with `A` nonempty over the first class, `B`
nonempty over the second class and `C` at least two ASCII letters; since
the pattern is anchored by `$`, Python additionally accepts one trailing
`'\n'` after the match. -/

/-- Character class `[a-zA-Z0-9._%+-]` (ASCII, as in the pattern). -/
def isClass1 (c : Char) : Bool :=
  c.isAlpha || c.isDigit || c == '.' || c == '_' || c == '%' || c == '+' || c == '-'

/-- Character class `[a-zA-Z0-9.-]`. -/
def isClass2 (c : Char) : Bool :=
  c.isAlpha || c.isDigit || c == '.' || c == '-'

/-- Does `s` decompose at positions `i` (the `'@'`) and `j` (the dot that
the pattern's `\.` consumes) as the email shape? -/
def emailCoreAt (s : List Char) (i j : Nat) : Bool :=
  match s.drop i with
  | a :: rest =>
    a == '@' &&
    (match rest.drop j with
     | d :: tld =>
       d == '.' &&
       !(s.take i).isEmpty && (s.take i).all isClass1 &&
       !(rest.take j).isEmpty && (rest.take j).all isClass2 &&
       decide (2 ≤ tld.length) && tld.all Char.isAlpha
     | [] => false)
  | [] => false

/-- The anchored pattern matches `s` exactly (no trailing newline). -/
def emailCore (s : List Char) : Bool :=
  (List.range (s.length + 1)).any fun i =>
    (List.range (s.length + 1)).any fun j => emailCoreAt s i j

/-- `re.match(email_regex, s)` is truthy: the `$` anchor also matches just
before one trailing `'\n'`. -/
def matchEmailRegex (s : List Char) : Bool :=
  emailCore s || (s.getLast? == some ('\n') && emailCore s.dropLast)

/-! ## MX record sorting

Source: `sorted([(r.preference, str(r.exchange).rstrip('.')) for r in mx_records])`.
Python sorts the pairs by `<` on tuples: ascending preference, then
lexicographic (code-point) order on the hostname.  That relation is a
total order (ties hold only between equal pairs), so any sort computes
the same list; we use Mathlib's structural insertion sort. -/

/-- Python `<=` on strings: lexicographic by code point. -/
def strLe : List Char → List Char → Bool
  | [], _ => true
  | _ :: _, [] => false
  | a :: as, b :: bs => a.toNat < b.toNat || (a == b && strLe as bs)

/-- Python `<=` on `(preference, hostname)` tuples. -/
def mxLe (x y : Nat × List Char) : Bool :=
  x.1 < y.1 || (x.1 == y.1 && strLe x.2 y.2)

/-- `mxLe` as a relation, for Mathlib's sorting machinery. -/
def mxRel (x y : Nat × List Char) : Prop := mxLe x y = true

instance : DecidableRel mxRel := fun x y => by
  unfold mxRel; infer_instance

/-- The `mx_hosts` list the source builds: hostnames stripped of trailing
dots, sorted by the tuple order. -/
def sortMx (records : List (Nat × List Char)) : List (Nat × List Char) :=
  List.insertionSort mxRel (records.map (fun r => (r.1, rstripDot r.2)))

/-! ## The SMTP conversation (`smtp_check`) -/

/-- The exceptions the conversation's `except` clauses distinguish. -/
inductive SmtpErr
  | timeout
  | sockErr (msg : List Char)
  | exn (msg : List Char)
  deriving DecidableEq

/-- Externally visible socket actions, in order of occurrence. -/
inductive SmtpCmd
  | ehlo
  | helo
  | mailFrom
  | rcptReal
  | rcptFake
  | quit
  deriving DecidableEq

inductive Act
  | connected
  | sent (c : SmtpCmd)
  | closed
  deriving DecidableEq

/-- One host's scripted network behaviour: the outcome of every socket
operation the conversation can reach, in source order. -/
structure HostScript where
  connect : Except SmtpErr Unit
  greetRecv : Except SmtpErr (List Char)
  ehloSend : Except SmtpErr Unit
  ehloRecv : Except SmtpErr (List Char)
  heloSend : Except SmtpErr Unit
  heloRecv : Except SmtpErr (List Char)
  mailSend : Except SmtpErr Unit
  mailRecv : Except SmtpErr (List Char)
  rcptSend : Except SmtpErr Unit
  rcptRecv : Except SmtpErr (List Char)
  fakeSend : Except SmtpErr Unit
  fakeRecv : Except SmtpErr (List Char)
  quitSend : Except SmtpErr Unit

/-- The dictionary `smtp_check` builds and returns. -/
structure SmtpResult where
  success : Bool
  catch_all : Bool
  mx_host : List Char
  message : List Char
  smtp_code : Option (List Char)
  definitive_failure : Bool
  deriving DecidableEq

/-- One run of `smtp_check`: the returned dictionary, the socket-action
trace, and the exception (if any) that reached the handlers. -/
structure ProbeRun where
  result : SmtpResult
  trace : List Act
  caught : Option SmtpErr
  deriving DecidableEq

/-- The initial `result` dictionary of `smtp_check`. -/
def initResult (mx_host : List Char) : SmtpResult :=
  { success := false, catch_all := false, mx_host := mx_host,
    message := [], smtp_code := none, definitive_failure := false }

def msgTimeout : List Char := "Connection timeout to ".data
def msgSock : List Char := "Socket error: ".data
def msgExn : List Char := "Error: ".data
def msgBadGreet : List Char := "Bad greeting: ".data
def msgMailRej : List Char := "MAIL FROM rejected: ".data
def msgAccepted : List Char := "Email accepted by server".data
def msgCatchAll : List Char := "Server is catch-all (accepts all addresses)".data
def msgCannotVerify : List Char := "Server cannot verify but will accept".data
def msgRejected : List Char := "Email rejected: ".data
def msgTemp : List Char := "Temporary failure: ".data
def msgUnexpected : List Char := "Unexpected response: ".data

/-- The messages the three `except` clauses of `smtp_check` write. -/
def errMsg (mx_host : List Char) : SmtpErr → List Char
  | SmtpErr.timeout => msgTimeout ++ mx_host
  | SmtpErr.sockErr m => msgSock ++ m
  | SmtpErr.exn m => msgExn ++ m

def c220 : List Char := "220".data
def c250 : List Char := "250".data
def c251 : List Char := "251".data
def c252 : List Char := "252".data
def c550 : List Char := "550".data
def c551 : List Char := "551".data
def c553 : List Char := "553".data
def c450 : List Char := "450".data
def c451 : List Char := "451".data
def c452 : List Char := "452".data

/-- `result["smtp_code"] = response[:3] if len(response) >= 3 else None`. -/
def codeOf (resp : List Char) : Option (List Char) :=
  if 3 ≤ resp.length then some (resp.take 3) else none

/-- The response-analysis block of `smtp_check` (source lines 194-219),
applied to the real reply `resp` and the synthetic-probe reply `fResp`.
The source first marks 250/251 accepted and then, inside that branch,
upgrades to catch-all when the synthetic reply is 250/251; the nesting
below is the same decision tree. -/
def classify (resp fResp : List Char) (r : SmtpResult) : SmtpResult :=
  if pyStartsWith resp c250 || pyStartsWith resp c251 then
    if pyStartsWith fResp c250 || pyStartsWith fResp c251 then
      { r with success := true, catch_all := true, message := msgCatchAll }
    else
      { r with success := true, message := msgAccepted }
  else if pyStartsWith resp c252 then
    { r with success := true, catch_all := true, message := msgCannotVerify }
  else if pyStartsWith resp c550 || pyStartsWith resp c551 || pyStartsWith resp c553 then
    { r with success := false, definitive_failure := true,
             message := msgRejected ++ pyStrip resp }
  else if pyStartsWith resp c450 || pyStartsWith resp c451 || pyStartsWith resp c452 then
    { r with success := false, message := msgTemp ++ pyStrip resp }
  else
    { r with message := msgUnexpected ++ pyStrip resp }

/-- The conversation from `MAIL FROM` on (source lines 167-228), entered
with the trace `tr` accumulated by the connect/greeting/hello phase.
A raised exception jumps to the handlers at the bottom of the function,
which only set `result["message"]` — in particular they do not close the
socket, and on the MAIL-FROM-rejected path the handler runs only if the
`QUIT` send itself raises (overwriting the message already stored). -/
def afterHello (mx_host : List Char) (h : HostScript) (tr : List Act) : ProbeRun :=
  match h.mailSend with
  | Except.error e =>
      ⟨{ initResult mx_host with message := errMsg mx_host e }, tr, some e⟩
  | Except.ok _ =>
  match h.mailRecv with
  | Except.error e =>
      ⟨{ initResult mx_host with message := errMsg mx_host e },
       tr ++ [Act.sent SmtpCmd.mailFrom], some e⟩
  | Except.ok mResp =>
  if pyStartsWith mResp c250 = false then
    match h.quitSend with
    | Except.error e =>
        ⟨{ initResult mx_host with message := errMsg mx_host e },
         tr ++ [Act.sent SmtpCmd.mailFrom], some e⟩
    | Except.ok _ =>
        ⟨{ initResult mx_host with message := msgMailRej ++ mResp },
         tr ++ [Act.sent SmtpCmd.mailFrom, Act.sent SmtpCmd.quit, Act.closed], none⟩
  else
  match h.rcptSend with
  | Except.error e =>
      ⟨{ initResult mx_host with message := errMsg mx_host e },
       tr ++ [Act.sent SmtpCmd.mailFrom], some e⟩
  | Except.ok _ =>
  match h.rcptRecv with
  | Except.error e =>
      ⟨{ initResult mx_host with message := errMsg mx_host e },
       tr ++ [Act.sent SmtpCmd.mailFrom, Act.sent SmtpCmd.rcptReal], some e⟩
  | Except.ok resp =>
  match h.fakeSend with
  | Except.error e =>
      ⟨{ initResult mx_host with smtp_code := codeOf resp, message := errMsg mx_host e },
       tr ++ [Act.sent SmtpCmd.mailFrom, Act.sent SmtpCmd.rcptReal], some e⟩
  | Except.ok _ =>
  match h.fakeRecv with
  | Except.error e =>
      ⟨{ initResult mx_host with smtp_code := codeOf resp, message := errMsg mx_host e },
       tr ++ [Act.sent SmtpCmd.mailFrom, Act.sent SmtpCmd.rcptReal, Act.sent SmtpCmd.rcptFake],
       some e⟩
  | Except.ok fResp =>
  match h.quitSend with
  | Except.error e =>
      ⟨{ initResult mx_host with smtp_code := codeOf resp, message := errMsg mx_host e },
       tr ++ [Act.sent SmtpCmd.mailFrom, Act.sent SmtpCmd.rcptReal, Act.sent SmtpCmd.rcptFake],
       some e⟩
  | Except.ok _ =>
      ⟨classify resp fResp { initResult mx_host with smtp_code := codeOf resp },
       tr ++ [Act.sent SmtpCmd.mailFrom, Act.sent SmtpCmd.rcptReal, Act.sent SmtpCmd.rcptFake,
              Act.sent SmtpCmd.quit, Act.closed],
       none⟩

/-- `smtp_check(mx_host, email, domain)`: connect, greeting (must start
with `220`, else the socket is closed — without a `QUIT` — and a
non-definitive result returned), `EHLO` with one `HELO` fallback whose
reply is not checked, then `afterHello`. -/
def smtp_check (mx_host : List Char) (h : HostScript) : ProbeRun :=
  match h.connect with
  | Except.error e =>
      ⟨{ initResult mx_host with message := errMsg mx_host e }, [], some e⟩
  | Except.ok _ =>
  match h.greetRecv with
  | Except.error e =>
      ⟨{ initResult mx_host with message := errMsg mx_host e }, [Act.connected], some e⟩
  | Except.ok greeting =>
  if pyStartsWith greeting c220 = false then
    ⟨{ initResult mx_host with message := msgBadGreet ++ greeting },
     [Act.connected, Act.closed], none⟩
  else
  match h.ehloSend with
  | Except.error e =>
      ⟨{ initResult mx_host with message := errMsg mx_host e }, [Act.connected], some e⟩
  | Except.ok _ =>
  match h.ehloRecv with
  | Except.error e =>
      ⟨{ initResult mx_host with message := errMsg mx_host e },
       [Act.connected, Act.sent SmtpCmd.ehlo], some e⟩
  | Except.ok eResp =>
  if (pyStartsWith eResp c250 || pyStartsWith eResp c220) = false then
    match h.heloSend with
    | Except.error e =>
        ⟨{ initResult mx_host with message := errMsg mx_host e },
         [Act.connected, Act.sent SmtpCmd.ehlo], some e⟩
    | Except.ok _ =>
    match h.heloRecv with
    | Except.error e =>
        ⟨{ initResult mx_host with message := errMsg mx_host e },
         [Act.connected, Act.sent SmtpCmd.ehlo, Act.sent SmtpCmd.helo], some e⟩
    | Except.ok _ =>
        afterHello mx_host h [Act.connected, Act.sent SmtpCmd.ehlo, Act.sent SmtpCmd.helo]
  else
    afterHello mx_host h [Act.connected, Act.sent SmtpCmd.ehlo]

/-! ## The orchestrator (`verify_email`) -/

/-- What `dns.resolver.resolve(domain, 'MX')` does, as an oracle.  The
first three constructors are the exception classes the source's first
`except` clause catches; `otherErr` is any other exception (for example
`dns.exception.Timeout`, the resolver lifetime timeout). -/
inductive DnsResult
  | ok (records : List (Nat × List Char))
  | noAnswer
  | nxdomain
  | noNameservers
  | otherErr (msg : List Char)
  deriving DecidableEq

inductive Status
  | valid
  | invalid
  | risky
  | unknown
  deriving DecidableEq

/-- The dictionary `verify_email` builds and returns.  `stxValid` embeds
the source's `syntax_valid` key (renamed: the original name collides with
a Lean keyword). -/
structure VResult where
  email : List Char
  stxValid : Bool
  mx_found : Bool
  mx_records : List (List Char)
  smtp_check : Bool
  smtp_response : Option SmtpResult
  status : Status
  score : Int
  message : List Char
  deriving DecidableEq

/-- The network accesses a call performs: whether the DNS resolver was
invoked, and which SMTP hosts were contacted, in order. -/
structure VNet where
  dnsQueried : Bool
  contacted : List (List Char)
  deriving DecidableEq

def msgBadStx : List Char := "Invalid email syntax".data
def msgNoMx : List Char := "No MX records found for domain: ".data
def msgDnsFail : List Char := "DNS lookup failed: ".data
def msgNoMxVerify : List Char := "No MX records to verify against".data
def msgSmtpUnknown : List Char :=
  "Could not verify via SMTP - server may be blocking verification".data
def msgValidOk : List Char := "Email address verified successfully".data
def msgRisky : List Char :=
  "Server accepts all emails (catch-all) - cannot definitively verify".data

/-- The `result` dictionary as initialised at the top of `verify_email`. -/
def baseResult (email : List Char) : VResult :=
  { email := email, stxValid := false, mx_found := false, mx_records := [],
    smtp_check := false, smtp_response := none, status := Status.unknown,
    score := 0, message := [] }

/-- The result after the syntax gate passed (`syntax_valid = True`,
`score += 20`). -/
def stxResult (email : List Char) : VResult :=
  { baseResult email with stxValid := true, score := (baseResult email).score + 20 }

/-- The result after MX lookup succeeded (`mx_found = True`,
`mx_records` filled, `score += 30`). -/
def mxResult (email : List Char) (mx_hosts : List (Nat × List Char)) : VResult :=
  { stxResult email with
      mx_found := true,
      mx_records := mx_hosts.map (fun q => q.2),
      score := (stxResult email).score + 30 }

/-- Outcome of the `for preference, mx_host in mx_hosts:` loop. -/
inductive LoopOut
  | verified (out : SmtpResult)
  | definitive (out : SmtpResult)
  | exhausted (last : Option SmtpResult)
  deriving DecidableEq

/-- The result dictionary of the probe of one host. -/
def probeOut (net : List Char → HostScript) (q : Nat × List Char) : SmtpResult :=
  (smtp_check q.2 (net q.2)).result

/-- The host loop: `break` on `success` (carrying the outcome), immediate
return on `definitive_failure`, otherwise record the outcome in
`smtp_response` and continue.  Also returns the hosts contacted, in
order.  (The loop's own `except Exception` clause is dead code here:
`smtp_check` catches every exception it can raise.) -/
def hostLoop (net : List Char → HostScript) (last : Option SmtpResult) :
    List (Nat × List Char) → LoopOut × List (List Char)
  | [] => (LoopOut.exhausted last, [])
  | q :: rest =>
    if (probeOut net q).success then
      (LoopOut.verified (probeOut net q), [q.2])
    else if (probeOut net q).definitive_failure then
      (LoopOut.definitive (probeOut net q), [q.2])
    else
      ((hostLoop net (some (probeOut net q)) rest).1,
       q.2 :: (hostLoop net (some (probeOut net q)) rest).2)

/-- Steps 3 and onward of `verify_email`: the `if not mx_hosts:` guard,
the host loop and the final aggregation. -/
def verifyHosts (email : List Char) (mx_hosts : List (Nat × List Char))
    (net : List Char → HostScript) : VResult × VNet :=
  if mx_hosts.isEmpty then
    ({ mxResult email mx_hosts with message := msgNoMxVerify, status := Status.unknown },
     ⟨true, []⟩)
  else
    match hostLoop net none mx_hosts with
    | (LoopOut.verified out, contacted) =>
      if out.catch_all then
        ({ mxResult email mx_hosts with
             smtp_response := some out, smtp_check := true,
             score := (mxResult email mx_hosts).score + 50 - 20,
             status := Status.risky, message := msgRisky },
         ⟨true, contacted⟩)
      else
        ({ mxResult email mx_hosts with
             smtp_response := some out, smtp_check := true,
             score := (mxResult email mx_hosts).score + 50,
             status := Status.valid, message := msgValidOk },
         ⟨true, contacted⟩)
    | (LoopOut.definitive out, contacted) =>
      ({ mxResult email mx_hosts with
           smtp_response := some out, smtp_check := false,
           status := Status.invalid, message := out.message },
       ⟨true, contacted⟩)
    | (LoopOut.exhausted last, contacted) =>
      ({ mxResult email mx_hosts with
           smtp_response := last, status := Status.unknown, message := msgSmtpUnknown },
       ⟨true, contacted⟩)

/-- Step 2 of `verify_email`: the MX lookup and its two `except` clauses. -/
def verifyWithDns (email : List Char) (dns : DnsResult)
    (net : List Char → HostScript) : VResult × VNet :=
  match dns with
  | DnsResult.noAnswer =>
      ({ stxResult email with
           message := msgNoMx ++ domainOf email,
           status := Status.invalid }, ⟨true, []⟩)
  | DnsResult.nxdomain =>
      ({ stxResult email with
           message := msgNoMx ++ domainOf email,
           status := Status.invalid }, ⟨true, []⟩)
  | DnsResult.noNameservers =>
      ({ stxResult email with
           message := msgNoMx ++ domainOf email,
           status := Status.invalid }, ⟨true, []⟩)
  | DnsResult.otherErr m =>
      ({ stxResult email with
           message := msgDnsFail ++ m,
           status := Status.unknown }, ⟨true, []⟩)
  | DnsResult.ok records => verifyHosts email (sortMx records) net

/-- `verify_email(email)`, over the DNS and network oracles.  Returns the
result dictionary together with the record of network accesses made. -/
def verify_email (email : List Char) (dns : DnsResult)
    (net : List Char → HostScript) : VResult × VNet :=
  if matchEmailRegex email = false then
    ({ baseResult email with message := msgBadStx, status := Status.invalid },
     { dnsQueried := false, contacted := [] })
  else
    verifyWithDns email dns net

/-! ## Path predicates over a host script

These recompute, from a `HostScript` alone, which way the conversation
branches; they are used to state the temporal claims. -/

def exOkU : Except SmtpErr Unit → Bool
  | Except.ok _ => true
  | Except.error _ => false

def recvVal : Except SmtpErr (List Char) → Option (List Char)
  | Except.ok s => some s
  | Except.error _ => none

/-- The connection opened and the greeting was read and starts with `220`. -/
def greetOk (h : HostScript) : Bool :=
  exOkU h.connect &&
    (match recvVal h.greetRecv with
     | some g => pyStartsWith g c220
     | none => false)

/-- The connection opened, the greeting was read but does not start with
`220` (the abort-and-close path). -/
def badGreetingPath (h : HostScript) : Bool :=
  exOkU h.connect &&
    (match recvVal h.greetRecv with
     | some g => !pyStartsWith g c220
     | none => false)

/-- The hello phase (EHLO, with the one HELO fallback) completed without
an exception. -/
def helloPassed (h : HostScript) : Bool :=
  greetOk h && exOkU h.ehloSend &&
    (match recvVal h.ehloRecv with
     | some r =>
       if pyStartsWith r c250 || pyStartsWith r c220 then true
       else exOkU h.heloSend && (recvVal h.heloRecv).isSome
     | none => false)

/-- The reply to `MAIL FROM`, when the conversation reaches it and the
read succeeds. -/
def mailVal (h : HostScript) : Option (List Char) :=
  if helloPassed h && exOkU h.mailSend then recvVal h.mailRecv else none

/-- The conversation reached `MAIL FROM`, whose reply does not start with
`250` (the QUIT-close-return path). -/
def mailRejPath (h : HostScript) : Bool :=
  match mailVal h with
  | some m => !pyStartsWith m c250
  | none => false

/-- The reply to the real `RCPT TO`, when the conversation reaches it and
the read succeeds. -/
def realVal (h : HostScript) : Option (List Char) :=
  match mailVal h with
  | some m =>
    if pyStartsWith m c250 && exOkU h.rcptSend then recvVal h.rcptRecv else none
  | none => none

/-- The reply to the synthetic `RCPT TO`, when reached and read. -/
def fakeVal (h : HostScript) : Option (List Char) :=
  if (realVal h).isSome && exOkU h.fakeSend then recvVal h.fakeRecv else none

/-- A per-host outcome that neither accepts nor definitively rejects:
the orchestrator records it and moves to the next host. -/
def inconclusive (r : SmtpResult) : Prop :=
  r.success = false ∧ r.definitive_failure = false

instance (r : SmtpResult) : Decidable (inconclusive r) := by
  unfold inconclusive; infer_instance

/-! ## Concrete scripts (used by the concrete witnesses below) -/

/-- A script in which every socket operation succeeds, with the given
server replies. -/
def okScript (greet ehlo mail rcpt fake : List Char) : HostScript :=
  { connect := Except.ok (), greetRecv := Except.ok greet,
    ehloSend := Except.ok (), ehloRecv := Except.ok ehlo,
    heloSend := Except.ok (), heloRecv := Except.ok [],
    mailSend := Except.ok (), mailRecv := Except.ok mail,
    rcptSend := Except.ok (), rcptRecv := Except.ok rcpt,
    fakeSend := Except.ok (), fakeRecv := Except.ok fake,
    quitSend := Except.ok () }

/-- A script in which every socket operation raises `e`. -/
def errScript (e : SmtpErr) : HostScript :=
  { connect := Except.error e, greetRecv := Except.error e,
    ehloSend := Except.error e, ehloRecv := Except.error e,
    heloSend := Except.error e, heloRecv := Except.error e,
    mailSend := Except.error e, mailRecv := Except.error e,
    rcptSend := Except.error e, rcptRecv := Except.error e,
    fakeSend := Except.error e, fakeRecv := Except.error e,
    quitSend := Except.error e }

/-- Connection opens, then the greeting read times out; every later
operation would also time out. -/
def greetTimeoutScript : HostScript :=
  { errScript SmtpErr.timeout with connect := Except.ok () }

/-! ## Prefix lemmas -/

theorem pyStartsWith_unique : ∀ (s p q : List Char), pyStartsWith s p = true →
    pyStartsWith s q = true → p.length = q.length → p = q := by
  intro s p
  induction p generalizing s with
  | nil =>
    intro q _ _ hl
    cases q with
    | nil => rfl
    | cons b bs => simp at hl
  | cons a as ih =>
    intro q hp hq hl
    cases q with
    | nil => simp at hl
    | cons b bs =>
      cases s with
      | nil => simp [pyStartsWith] at hp
      | cons c cs =>
        simp only [pyStartsWith, Bool.and_eq_true, beq_iff_eq] at hp hq
        simp only [List.length_cons, Nat.add_right_cancel_iff] at hl
        obtain ⟨h1, hp2⟩ := hp
        obtain ⟨h2, hq2⟩ := hq
        subst h1
        subst h2
        rw [ih cs bs hp2 hq2 hl]

theorem pyStartsWith_excl (s p q : List Char) (h : pyStartsWith s p = true)
    (hl : p.length = q.length) (hne : p ≠ q) : pyStartsWith s q = false := by
  cases hq : pyStartsWith s q with
  | false => rfl
  | true => exact absurd (pyStartsWith_unique s p q h hq hl) hne

/-! ## Classifier lemmas -/

theorem classify_accept (resp fResp : List Char) (r : SmtpResult)
    (h : (pyStartsWith resp c250 || pyStartsWith resp c251) = true) :
    (classify resp fResp r).success = true := by
  unfold classify
  rw [if_pos h]
  split <;> rfl

theorem classify_catchall (resp fResp : List Char) (r : SmtpResult)
    (h : (pyStartsWith resp c250 || pyStartsWith resp c251) = true)
    (hf : (pyStartsWith fResp c250 || pyStartsWith fResp c251) = true) :
    (classify resp fResp r).success = true ∧ (classify resp fResp r).catch_all = true := by
  unfold classify
  rw [if_pos h, if_pos hf]
  exact ⟨rfl, rfl⟩

theorem classify_no_catchall (resp fResp : List Char) (r : SmtpResult)
    (h : (pyStartsWith resp c250 || pyStartsWith resp c251) = true)
    (hf : (pyStartsWith fResp c250 || pyStartsWith fResp c251) = false) :
    (classify resp fResp r).catch_all = r.catch_all := by
  unfold classify
  rw [if_pos h, if_neg (by simp [hf])]

theorem classify_catchall_iff (resp fResp mx : List Char) (code : Option (List Char))
    (h : (pyStartsWith resp c250 || pyStartsWith resp c251) = true) :
    (classify resp fResp { initResult mx with smtp_code := code }).catch_all = true ↔
      (pyStartsWith fResp c250 || pyStartsWith fResp c251) = true := by
  by_cases hf : (pyStartsWith fResp c250 || pyStartsWith fResp c251) = true
  · simp [hf, (classify_catchall resp fResp _ h hf).2]
  · have hf2 : (pyStartsWith fResp c250 || pyStartsWith fResp c251) = false := by
      simpa using hf
    simp [hf2, classify_no_catchall resp fResp _ h hf2, initResult]

theorem classify_252 (resp fResp : List Char) (r : SmtpResult)
    (h : pyStartsWith resp c252 = true) :
    (classify resp fResp r).success = true ∧ (classify resp fResp r).catch_all = true := by
  have h250 : pyStartsWith resp c250 = false :=
    pyStartsWith_excl resp c252 c250 h (by decide) (by decide)
  have h251 : pyStartsWith resp c251 = false :=
    pyStartsWith_excl resp c252 c251 h (by decide) (by decide)
  unfold classify
  rw [h250, h251]
  simp [h]

theorem classify_definitive_cases (resp fResp : List Char) (r : SmtpResult) (p : List Char)
    (hmem : p = c550 ∨ p = c551 ∨ p = c553)
    (hp : pyStartsWith resp p = true) :
    (classify resp fResp r).definitive_failure = true ∧
    (classify resp fResp r).success = false := by
  have h250 : pyStartsWith resp c250 = false := by
    rcases hmem with rfl | rfl | rfl <;>
      exact pyStartsWith_excl resp _ c250 hp (by decide) (by decide)
  have h251 : pyStartsWith resp c251 = false := by
    rcases hmem with rfl | rfl | rfl <;>
      exact pyStartsWith_excl resp _ c251 hp (by decide) (by decide)
  have h252 : pyStartsWith resp c252 = false := by
    rcases hmem with rfl | rfl | rfl <;>
      exact pyStartsWith_excl resp _ c252 hp (by decide) (by decide)
  have htrue :
      (pyStartsWith resp c550 || pyStartsWith resp c551 || pyStartsWith resp c553) = true := by
    rcases hmem with rfl | rfl | rfl <;> simp [hp]
  unfold classify
  rw [h250, h251, h252]
  simp [htrue]

theorem classify_temp (resp fResp : List Char) (r : SmtpResult) (p : List Char)
    (hmem : p = c450 ∨ p = c451 ∨ p = c452)
    (hp : pyStartsWith resp p = true) :
    (classify resp fResp r).success = false ∧
    (classify resp fResp r).definitive_failure = r.definitive_failure := by
  have h250 : pyStartsWith resp c250 = false := by
    rcases hmem with rfl | rfl | rfl <;>
      exact pyStartsWith_excl resp _ c250 hp (by decide) (by decide)
  have h251 : pyStartsWith resp c251 = false := by
    rcases hmem with rfl | rfl | rfl <;>
      exact pyStartsWith_excl resp _ c251 hp (by decide) (by decide)
  have h252 : pyStartsWith resp c252 = false := by
    rcases hmem with rfl | rfl | rfl <;>
      exact pyStartsWith_excl resp _ c252 hp (by decide) (by decide)
  have h550 : pyStartsWith resp c550 = false := by
    rcases hmem with rfl | rfl | rfl <;>
      exact pyStartsWith_excl resp _ c550 hp (by decide) (by decide)
  have h551 : pyStartsWith resp c551 = false := by
    rcases hmem with rfl | rfl | rfl <;>
      exact pyStartsWith_excl resp _ c551 hp (by decide) (by decide)
  have h553 : pyStartsWith resp c553 = false := by
    rcases hmem with rfl | rfl | rfl <;>
      exact pyStartsWith_excl resp _ c553 hp (by decide) (by decide)
  have htrue :
      (pyStartsWith resp c450 || pyStartsWith resp c451 || pyStartsWith resp c452) = true := by
    rcases hmem with rfl | rfl | rfl <;> simp [hp]
  unfold classify
  rw [h250, h251, h252, h550, h551, h553]
  simp [htrue]

theorem classify_unexpected (resp fResp : List Char) (r : SmtpResult)
    (h250 : pyStartsWith resp c250 = false) (h251 : pyStartsWith resp c251 = false)
    (h252 : pyStartsWith resp c252 = false) (h550 : pyStartsWith resp c550 = false)
    (h551 : pyStartsWith resp c551 = false) (h553 : pyStartsWith resp c553 = false)
    (h450 : pyStartsWith resp c450 = false) (h451 : pyStartsWith resp c451 = false)
    (h452 : pyStartsWith resp c452 = false) :
    (classify resp fResp r).success = r.success ∧
    (classify resp fResp r).definitive_failure = r.definitive_failure := by
  unfold classify
  rw [h250, h251, h252, h550, h551, h553, h450, h451, h452]
  simp

theorem classify_def_not_success (resp fResp : List Char) (r : SmtpResult)
    (hr : r.definitive_failure = false)
    (h : (classify resp fResp r).definitive_failure = true) :
    (classify resp fResp r).success = false := by
  unfold classify at *
  repeat' split at h <;> simp_all

theorem classify_message_ne (resp fResp : List Char) (r : SmtpResult) :
    (classify resp fResp r).message ≠ [] := by
  intro hh
  unfold classify at hh
  have n1 : msgCatchAll ≠ [] := by decide
  have n2 : msgAccepted ≠ [] := by decide
  have n3 : msgCannotVerify ≠ [] := by decide
  have n4 : msgRejected ≠ [] := by decide
  have n5 : msgTemp ≠ [] := by decide
  have n6 : msgUnexpected ≠ [] := by decide
  repeat' split at hh <;> simp_all [List.append_eq_nil]

/-! ## Conversation-level lemmas -/

theorem exOkU_eq (x : Except SmtpErr Unit) (h : exOkU x = true) : x = Except.ok () := by
  cases x with
  | error e => simp [exOkU] at h
  | ok u => cases u; rfl

theorem errMsg_ne (mx : List Char) (e : SmtpErr) : errMsg mx e ≠ [] := by
  have n1 : msgTimeout ≠ [] := by decide
  have n2 : msgSock ≠ [] := by decide
  have n3 : msgExn ≠ [] := by decide
  cases e <;> simp_all [errMsg, List.append_eq_nil]

theorem afterHello_message_ne (mx : List Char) (h : HostScript) (tr : List Act) :
    (afterHello mx h tr).result.message ≠ [] := by
  have hmr : msgMailRej ≠ [] := by decide
  unfold afterHello
  repeat' split
  all_goals simp_all [List.append_eq_nil, errMsg_ne, classify_message_ne]

theorem smtp_check_message_ne (mx : List Char) (h : HostScript) :
    (smtp_check mx h).result.message ≠ [] := by
  have hbg : msgBadGreet ≠ [] := by decide
  unfold smtp_check
  repeat' split
  all_goals simp_all [List.append_eq_nil, errMsg_ne, afterHello_message_ne]

theorem afterHello_caught (mx : List Char) (h : HostScript) (tr : List Act) :
    (afterHello mx h tr).caught = none ∨
    ((afterHello mx h tr).result.success = false ∧
     (afterHello mx h tr).result.definitive_failure = false) := by
  unfold afterHello
  repeat' split
  all_goals simp [initResult]

theorem smtp_check_caught (mx : List Char) (h : HostScript) :
    (smtp_check mx h).caught = none ∨
    ((smtp_check mx h).result.success = false ∧
     (smtp_check mx h).result.definitive_failure = false) := by
  unfold smtp_check
  repeat' split
  all_goals first
    | simp [initResult]
    | exact afterHello_caught mx h _

theorem afterHello_def (mx : List Char) (h : HostScript) (tr : List Act) :
    (afterHello mx h tr).result.definitive_failure = true →
    (afterHello mx h tr).result.success = false := by
  unfold afterHello
  repeat' split
  all_goals first
    | (simp [initResult]
       done)
    | (intro hh
       exact classify_def_not_success _ _ _ rfl hh)

theorem smtp_check_def (mx : List Char) (h : HostScript) :
    (smtp_check mx h).result.definitive_failure = true →
    (smtp_check mx h).result.success = false := by
  unfold smtp_check
  repeat' split
  all_goals first
    | (simp [initResult]
       done)
    | exact afterHello_def mx h _

theorem afterHello_mem_tr (mx : List Char) (h : HostScript) (tr : List Act) (a : Act)
    (ha : a ∈ tr) : a ∈ (afterHello mx h tr).trace := by
  unfold afterHello
  repeat' split
  all_goals simp [ha]

theorem afterHello_closed (mx : List Char) (h : HostScript) (tr : List Act)
    (htr : Act.closed ∉ tr) :
    (Act.closed ∈ (afterHello mx h tr).trace ↔ (afterHello mx h tr).caught = none) := by
  unfold afterHello
  repeat' split
  all_goals simp_all

theorem smtp_check_closed (mx : List Char) (h : HostScript) :
    (Act.closed ∈ (smtp_check mx h).trace ↔
      Act.connected ∈ (smtp_check mx h).trace ∧ (smtp_check mx h).caught = none) := by
  unfold smtp_check
  repeat' split
  all_goals first
    | simp
    | (rw [afterHello_closed mx h [Act.connected, Act.sent SmtpCmd.ehlo] (by decide)]
       simp [afterHello_mem_tr mx h [Act.connected, Act.sent SmtpCmd.ehlo]
         Act.connected (by decide)])
    | (rw [afterHello_closed mx h
         [Act.connected, Act.sent SmtpCmd.ehlo, Act.sent SmtpCmd.helo] (by decide)]
       simp [afterHello_mem_tr mx h
         [Act.connected, Act.sent SmtpCmd.ehlo, Act.sent SmtpCmd.helo]
         Act.connected (by decide)])

/-! ## Path decomposition lemmas -/

theorem smtp_check_hello (mx : List Char) (h : HostScript) (hh : helloPassed h = true) :
    smtp_check mx h = afterHello mx h [Act.connected, Act.sent SmtpCmd.ehlo] ∨
    smtp_check mx h =
      afterHello mx h [Act.connected, Act.sent SmtpCmd.ehlo, Act.sent SmtpCmd.helo] := by
  unfold helloPassed greetOk at hh
  simp only [Bool.and_eq_true] at hh
  obtain ⟨⟨⟨hcon, hgm⟩, hes⟩, hm⟩ := hh
  have hconE := exOkU_eq _ hcon
  have hesE := exOkU_eq _ hes
  rcases hgr : h.greetRecv with e | g
  · rw [hgr] at hgm; simp [recvVal] at hgm
  · rw [hgr] at hgm
    simp only [recvVal] at hgm
    rcases her : h.ehloRecv with e | r
    · rw [her] at hm; simp [recvVal] at hm
    · rw [her] at hm
      simp only [recvVal] at hm
      by_cases hcnd : (pyStartsWith r c250 || pyStartsWith r c220) = true
      · left
        unfold smtp_check
        rw [hconE, hgr, hesE, her]
        simp [hgm, hcnd]
      · have hc2 : (pyStartsWith r c250 || pyStartsWith r c220) = false := by
          simpa using hcnd
        rw [if_neg (by simp [hc2])] at hm
        simp only [Bool.and_eq_true] at hm
        obtain ⟨hhs, hhr⟩ := hm
        have hhsE := exOkU_eq _ hhs
        rcases hhrr : h.heloRecv with e | v
        · rw [hhrr] at hhr; simp [recvVal] at hhr
        · right
          unfold smtp_check
          rw [hconE, hgr, hesE, her, hhsE, hhrr]
          simp [hgm, hc2]

theorem mailVal_some (h : HostScript) (m : List Char) (hm : mailVal h = some m) :
    helloPassed h = true ∧ h.mailSend = Except.ok () ∧ h.mailRecv = Except.ok m := by
  unfold mailVal at hm
  by_cases hc : (helloPassed h && exOkU h.mailSend) = true
  · rw [if_pos hc] at hm
    simp only [Bool.and_eq_true] at hc
    obtain ⟨h1, h2⟩ := hc
    refine ⟨h1, exOkU_eq _ h2, ?_⟩
    rcases hmr : h.mailRecv with e | v
    · rw [hmr] at hm; simp [recvVal] at hm
    · rw [hmr] at hm
      simp only [recvVal, Option.some.injEq] at hm
      rw [hm]
  · rw [if_neg hc] at hm
    simp at hm

theorem realVal_some (h : HostScript) (r : List Char) (hr : realVal h = some r) :
    ∃ m, mailVal h = some m ∧ pyStartsWith m c250 = true ∧
      h.rcptSend = Except.ok () ∧ h.rcptRecv = Except.ok r := by
  unfold realVal at hr
  rcases hmv : mailVal h with _ | m
  · rw [hmv] at hr; simp at hr
  · rw [hmv] at hr
    dsimp only at hr
    by_cases hc : (pyStartsWith m c250 && exOkU h.rcptSend) = true
    · rw [if_pos hc] at hr
      simp only [Bool.and_eq_true] at hc
      obtain ⟨h1, h2⟩ := hc
      refine ⟨m, rfl, h1, exOkU_eq _ h2, ?_⟩
      rcases hrr : h.rcptRecv with e | v
      · rw [hrr] at hr; simp [recvVal] at hr
      · rw [hrr] at hr
        simp only [recvVal, Option.some.injEq] at hr
        rw [hr]
    · rw [if_neg hc] at hr
      simp at hr

theorem fakeVal_some (h : HostScript) (f : List Char) (hf : fakeVal h = some f) :
    ∃ r, realVal h = some r ∧ h.fakeSend = Except.ok () ∧ h.fakeRecv = Except.ok f := by
  unfold fakeVal at hf
  by_cases hc : ((realVal h).isSome && exOkU h.fakeSend) = true
  · rw [if_pos hc] at hf
    simp only [Bool.and_eq_true] at hc
    obtain ⟨h1, h2⟩ := hc
    rcases hrv : realVal h with _ | r
    · rw [hrv] at h1; simp at h1
    · refine ⟨r, rfl, exOkU_eq _ h2, ?_⟩
      rcases hfr : h.fakeRecv with e | v
      · rw [hfr] at hf; simp [recvVal] at hf
      · rw [hfr] at hf
        simp only [recvVal, Option.some.injEq] at hf
        rw [hf]
  · rw [if_neg hc] at hf
    simp at hf

/-! ## Trace shape lemmas -/

theorem afterHello_mailRej_tr (mx : List Char) (h : HostScript) (tr : List Act) (m : List Char)
    (hms : h.mailSend = Except.ok ()) (hmr : h.mailRecv = Except.ok m)
    (hrej : pyStartsWith m c250 = false) (hq : h.quitSend = Except.ok ()) :
    (afterHello mx h tr).trace =
      tr ++ [Act.sent SmtpCmd.mailFrom, Act.sent SmtpCmd.quit, Act.closed] := by
  unfold afterHello
  rw [hms, hmr, hq]
  simp [hrej]

theorem afterHello_fake_tr (mx : List Char) (h : HostScript) (tr : List Act) (m r : List Char)
    (hms : h.mailSend = Except.ok ()) (hmr : h.mailRecv = Except.ok m)
    (hm250 : pyStartsWith m c250 = true)
    (hrs : h.rcptSend = Except.ok ()) (hrr : h.rcptRecv = Except.ok r)
    (hfs : h.fakeSend = Except.ok ()) :
    (afterHello mx h tr).trace =
      tr ++ [Act.sent SmtpCmd.mailFrom, Act.sent SmtpCmd.rcptReal, Act.sent SmtpCmd.rcptFake] ∨
    (afterHello mx h tr).trace =
      tr ++ [Act.sent SmtpCmd.mailFrom, Act.sent SmtpCmd.rcptReal, Act.sent SmtpCmd.rcptFake,
             Act.sent SmtpCmd.quit, Act.closed] := by
  unfold afterHello
  rw [hms, hmr, hrs, hrr, hfs]
  rcases hfr : h.fakeRecv with e | f
  · left; simp [hm250]
  · rcases hqq : h.quitSend with e | u
    · left; simp [hm250]
    · right; simp [hm250]

theorem afterHello_complete_tr (mx : List Char) (h : HostScript) (tr : List Act)
    (m r f : List Char)
    (hms : h.mailSend = Except.ok ()) (hmr : h.mailRecv = Except.ok m)
    (hm250 : pyStartsWith m c250 = true)
    (hrs : h.rcptSend = Except.ok ()) (hrr : h.rcptRecv = Except.ok r)
    (hfs : h.fakeSend = Except.ok ()) (hfr : h.fakeRecv = Except.ok f)
    (hq : h.quitSend = Except.ok ()) :
    (afterHello mx h tr).trace =
      tr ++ [Act.sent SmtpCmd.mailFrom, Act.sent SmtpCmd.rcptReal, Act.sent SmtpCmd.rcptFake,
             Act.sent SmtpCmd.quit, Act.closed] := by
  unfold afterHello
  rw [hms, hmr, hrs, hrr, hfs, hfr, hq]
  simp [hm250]

theorem smtp_check_badGreet_tr (mx : List Char) (h : HostScript)
    (hbad : badGreetingPath h = true) :
    (smtp_check mx h).trace = [Act.connected, Act.closed] := by
  unfold badGreetingPath at hbad
  simp only [Bool.and_eq_true] at hbad
  obtain ⟨hcon, hgm⟩ := hbad
  have hconE := exOkU_eq _ hcon
  rcases hgr : h.greetRecv with e | g
  · rw [hgr] at hgm; simp [recvVal] at hgm
  · rw [hgr] at hgm
    simp only [recvVal, Bool.not_eq_true'] at hgm
    unfold smtp_check
    rw [hconE, hgr]
    simp [hgm]

/-! ## Host-loop lemmas -/

theorem hostLoop_definitive (net : List Char → HostScript) (x : Nat × List Char)
    (rest : List (Nat × List Char)) :
    ∀ (pre : List (Nat × List Char)) (last : Option SmtpResult),
    (∀ q ∈ pre, inconclusive (probeOut net q)) →
    (probeOut net x).success = false →
    (probeOut net x).definitive_failure = true →
    hostLoop net last (pre ++ x :: rest) =
      (LoopOut.definitive (probeOut net x), pre.map (fun q => q.2) ++ [x.2]) := by
  intro pre
  induction pre with
  | nil =>
    intro last _ hns hdef
    simp [hostLoop, hns, hdef]
  | cons q pre ih =>
    intro last hpre hns hdef
    have hq := hpre q (by simp)
    simp [hostLoop, hq.1, hq.2,
      ih (some (probeOut net q)) (fun p hp => hpre p (by simp [hp])) hns hdef]

theorem hostLoop_verified (net : List Char → HostScript) (x : Nat × List Char)
    (rest : List (Nat × List Char)) :
    ∀ (pre : List (Nat × List Char)) (last : Option SmtpResult),
    (∀ q ∈ pre, inconclusive (probeOut net q)) →
    (probeOut net x).success = true →
    hostLoop net last (pre ++ x :: rest) =
      (LoopOut.verified (probeOut net x), pre.map (fun q => q.2) ++ [x.2]) := by
  intro pre
  induction pre with
  | nil =>
    intro last _ hs
    simp [hostLoop, hs]
  | cons q pre ih =>
    intro last hpre hs
    have hq := hpre q (by simp)
    simp [hostLoop, hq.1, hq.2,
      ih (some (probeOut net q)) (fun p hp => hpre p (by simp [hp])) hs]

theorem hostLoop_exhausted (net : List Char → HostScript) :
    ∀ (hosts : List (Nat × List Char)), hosts ≠ [] →
    (∀ q ∈ hosts, inconclusive (probeOut net q)) →
    ∀ last, hostLoop net last hosts =
      (LoopOut.exhausted (hosts.getLast?.map (fun q => probeOut net q)),
       hosts.map (fun q => q.2)) := by
  intro hosts
  induction hosts with
  | nil => intro hne; exact absurd rfl hne
  | cons q rest ih =>
    intro _ hinc last
    have hq := hinc q (by simp)
    cases rest with
    | nil => simp [hostLoop, hq.1, hq.2]
    | cons p ps =>
      have hrec := ih (by simp) (fun r hr => hinc r (by simp [hr])) (some (probeOut net q))
      have step : hostLoop net last (q :: p :: ps) =
          ((hostLoop net (some (probeOut net q)) (p :: ps)).1,
           q.2 :: (hostLoop net (some (probeOut net q)) (p :: ps)).2) := by
        simp [hostLoop, hq.1, hq.2]
      rw [step, hrec]
      simp [List.getLast?_cons_cons]

theorem hostLoop_take (net : List Char → HostScript) :
    ∀ (hosts : List (Nat × List Char)) (last : Option SmtpResult),
    (hostLoop net last hosts).2 =
      (hosts.map (fun q => q.2)).take (hostLoop net last hosts).2.length := by
  intro hosts
  induction hosts with
  | nil => intro last; simp [hostLoop]
  | cons q rest ih =>
    intro last
    by_cases hs : (probeOut net q).success = true
    · simp [hostLoop, hs]
    · by_cases hd : (probeOut net q).definitive_failure = true
      · simp [hostLoop, hs, hd]
      · simp [hostLoop, hs, hd, List.take_succ_cons]
        exact ih (some (probeOut net q))

theorem hostLoop_definitive_mem (net : List Char → HostScript) :
    ∀ (hosts : List (Nat × List Char)) (last : Option SmtpResult) (out : SmtpResult),
    (hostLoop net last hosts).1 = LoopOut.definitive out →
    ∃ q, out = probeOut net q := by
  intro hosts
  induction hosts with
  | nil =>
    intro last out hh
    simp [hostLoop] at hh
  | cons q rest ih =>
    intro last out hh
    by_cases hs : (probeOut net q).success = true
    · simp [hostLoop, hs] at hh
    · by_cases hd : (probeOut net q).definitive_failure = true
      · simp [hostLoop, hs, hd] at hh
        exact ⟨q, hh.symm⟩
      · simp [hostLoop, hs, hd] at hh
        exact ih (some (probeOut net q)) out hh

/-! ## Order lemmas for the MX sort -/

theorem strLe_total (a : List Char) : ∀ (b : List Char),
    strLe a b = true ∨ strLe b a = true := by
  induction a with
  | nil => intro b; left; simp [strLe]
  | cons x xs ih =>
    intro b
    cases b with
    | nil => right; simp [strLe]
    | cons y ys =>
      rcases Nat.lt_trichotomy x.toNat y.toNat with h | h | h
      · left; simp [strLe, h]
      · have hxy : x = y := Char.eq_of_val_eq (UInt32.ext h)
        subst hxy
        rcases ih ys with h2 | h2
        · left; simp [strLe, h2]
        · right; simp [strLe, h2]
      · right; simp [strLe, h]

theorem strLe_trans : ∀ (a b c : List Char),
    strLe a b = true → strLe b c = true → strLe a c = true := by
  intro a
  induction a with
  | nil => intro b c _ _; cases c <;> simp [strLe]
  | cons x xs ih =>
    intro b c hab hbc
    cases b with
    | nil => simp [strLe] at hab
    | cons y ys =>
      cases c with
      | nil => simp [strLe] at hbc
      | cons z zs =>
        simp only [strLe, Bool.or_eq_true, Bool.and_eq_true, decide_eq_true_eq,
          beq_iff_eq] at hab hbc ⊢
        rcases hab with h1 | ⟨rfl, h1'⟩
        · rcases hbc with h2 | ⟨rfl, h2'⟩
          · left; omega
          · left; exact h1
        · rcases hbc with h2 | ⟨rfl, h2'⟩
          · left; exact h2
          · right; exact ⟨rfl, ih ys zs h1' h2'⟩

theorem mxLe_total (x y : Nat × List Char) : mxLe x y = true ∨ mxLe y x = true := by
  unfold mxLe
  rcases Nat.lt_trichotomy x.1 y.1 with h | h | h
  · left; simp [h]
  · rcases strLe_total x.2 y.2 with h2 | h2
    · left; simp [h, h2]
    · right; simp [h, h2]
  · right; simp [h]

theorem mxLe_trans (x y z : Nat × List Char) (h1 : mxLe x y = true)
    (h2 : mxLe y z = true) : mxLe x z = true := by
  unfold mxLe at *
  simp only [Bool.or_eq_true, Bool.and_eq_true, decide_eq_true_eq, beq_iff_eq] at *
  rcases h1 with h1 | ⟨he1, hs1⟩
  · rcases h2 with h2 | ⟨he2, hs2⟩
    · left; omega
    · left; omega
  · rcases h2 with h2 | ⟨he2, hs2⟩
    · left; omega
    · right
      refine ⟨by omega, strLe_trans _ _ _ hs1 hs2⟩

theorem sortMx_sorted (records : List (Nat × List Char)) :
    List.Pairwise mxRel (sortMx records) :=
  @List.sorted_insertionSort _ mxRel _ ⟨fun a b => mxLe_total a b⟩
    ⟨fun a b c hab hbc => mxLe_trans a b c hab hbc⟩ _

/-! ## Syntax-gate lemmas -/

theorem emailCore_at (s : List Char) (h : emailCore s = true) : '@' ∈ s := by
  unfold emailCore at h
  rw [List.any_eq_true] at h
  obtain ⟨i, _, hi⟩ := h
  rw [List.any_eq_true] at hi
  obtain ⟨j, _, hj⟩ := hi
  unfold emailCoreAt at hj
  rcases hd : s.drop i with _ | ⟨a, rest⟩
  · rw [hd] at hj; simp at hj
  · rw [hd] at hj
    simp only [Bool.and_eq_true, beq_iff_eq] at hj
    have ha : a = '@' := hj.1
    have hmem : '@' ∈ s.drop i := by rw [hd, ha]; simp
    exact List.drop_subset i s hmem

theorem matchEmailRegex_at (s : List Char) (h : matchEmailRegex s = true) : '@' ∈ s := by
  unfold matchEmailRegex at h
  simp only [Bool.or_eq_true, Bool.and_eq_true] at h
  rcases h with h1 | ⟨_, h3⟩
  · exact emailCore_at s h1
  · exact List.dropLast_subset s (emailCore_at _ h3)

/-! ## Claim theorems -/

/-- C7: for every input string that fails the email-shape pattern, the
result is terminal `status=invalid` with `score=0` and `syntax_valid`
false, and no network access (neither the DNS resolver nor any SMTP
host) is performed. -/
theorem C7_syntax_gate (email : List Char) (dns : DnsResult) (net : List Char → HostScript)
    (h : matchEmailRegex email = false) :
    (verify_email email dns net).1.status = Status.invalid ∧
    (verify_email email dns net).1.score = 0 ∧
    (verify_email email dns net).1.stxValid = false ∧
    (verify_email email dns net).2.dnsQueried = false ∧
    (verify_email email dns net).2.contacted = [] := by
  unfold verify_email
  simp [h, baseResult]

/-- C7 witness: a concrete string without the email shape. -/
theorem C7_witness :
    matchEmailRegex ("not-an-email".data) = false ∧
    ((verify_email ("not-an-email".data) DnsResult.noAnswer
        (fun _ => errScript SmtpErr.timeout)).1.status = Status.invalid ∧
     (verify_email ("not-an-email".data) DnsResult.noAnswer
        (fun _ => errScript SmtpErr.timeout)).1.score = 0 ∧
     (verify_email ("not-an-email".data) DnsResult.noAnswer
        (fun _ => errScript SmtpErr.timeout)).1.stxValid = false ∧
     (verify_email ("not-an-email".data) DnsResult.noAnswer
        (fun _ => errScript SmtpErr.timeout)).2.dnsQueried = false ∧
     (verify_email ("not-an-email".data) DnsResult.noAnswer
        (fun _ => errScript SmtpErr.timeout)).2.contacted = []) :=
  ⟨by decide, C7_syntax_gate _ _ _ (by decide)⟩

/-- C1 counterexample: the claim says every MX-resolution infrastructure
failure (nameservers unreachable included) yields `status=unknown`, never
`invalid`; but the code catches `dns.resolver.NoNameservers` — "all
nameservers failed to answer", i.e. nameservers unreachable — in the same
`except` clause as no-MX/NXDOMAIN and returns `status=invalid`. -/
theorem C1_counterexample :
    (verify_email ("a@b.co".data) DnsResult.noNameservers
        (fun _ => errScript SmtpErr.timeout)).1.status = Status.invalid ∧
    ¬ (verify_email ("a@b.co".data) DnsResult.noNameservers
        (fun _ => errScript SmtpErr.timeout)).1.status = Status.unknown := by
  decide

/-- C1 amended: `NoAnswer`, `NXDOMAIN` and `NoNameservers` all yield
terminal `status=invalid` with `mx_found=false`; any other resolution
failure (e.g. a resolver lifetime timeout) yields terminal
`status=unknown`. -/
theorem C1_amended (email m : List Char) (net : List Char → HostScript)
    (h : matchEmailRegex email = true) :
    ((verify_email email DnsResult.noAnswer net).1.status = Status.invalid ∧
     (verify_email email DnsResult.noAnswer net).1.mx_found = false) ∧
    ((verify_email email DnsResult.nxdomain net).1.status = Status.invalid ∧
     (verify_email email DnsResult.nxdomain net).1.mx_found = false) ∧
    ((verify_email email DnsResult.noNameservers net).1.status = Status.invalid ∧
     (verify_email email DnsResult.noNameservers net).1.mx_found = false) ∧
    (verify_email email (DnsResult.otherErr m) net).1.status = Status.unknown := by
  unfold verify_email verifyWithDns
  simp [h, stxResult, baseResult]

/-- C1 witness: the amended behaviour at a concrete address. -/
theorem C1_witness :
    matchEmailRegex ("a@b.co".data) = true ∧
    ((verify_email ("a@b.co".data) DnsResult.noAnswer
        (fun _ => errScript SmtpErr.timeout)).1.status = Status.invalid ∧
     (verify_email ("a@b.co".data) DnsResult.noAnswer
        (fun _ => errScript SmtpErr.timeout)).1.mx_found = false) ∧
    (verify_email ("a@b.co".data) (DnsResult.otherErr ("timed out".data))
        (fun _ => errScript SmtpErr.timeout)).1.status = Status.unknown :=
  ⟨by decide,
   (C1_amended ("a@b.co".data) ("timed out".data) (fun _ => errScript SmtpErr.timeout)
      (by decide)).1,
   (C1_amended ("a@b.co".data) ("timed out".data) (fun _ => errScript SmtpErr.timeout)
      (by decide)).2.2.2⟩

/-- C3 counterexample: the claim says any 2xx-class accepted synthetic
reply forces `catch_all`; but a synthetic reply `252` — which the
classifier itself treats as accepted when it is the real reply (second
conjunct) — does not set `catch_all`, because the code only tests the
synthetic reply against `250` and `251`. -/
theorem C3_counterexample :
    (classify ("250 ok".data) ("252 cannot verify".data)
        (initResult ("mx.example".data))).catch_all = false ∧
    (classify ("252 cannot verify".data) ("550 no".data)
        (initResult ("mx.example".data))).success = true := by
  decide

/-- C3 amended: 250/251 set accepted; 252 sets accepted and forces
catch-all independently of the synthetic probe; 550/551/553 set
definitive failure; and when the real reply is 250/251-accepted, the
synthetic reply sets catch-all exactly when it starts with `250` or
`251`: the fourth conjunct is the positive direction, the fifth proves
that any other synthetic reply (252 or any other 2xx included) leaves
the catch-all flag unchanged, and the sixth is the biconditional on the
result record `smtp_check` actually feeds the classifier (whose
catch-all flag starts false). -/
theorem C3_amended :
    (∀ (resp fResp : List Char) (r : SmtpResult),
       (pyStartsWith resp c250 || pyStartsWith resp c251) = true →
       (classify resp fResp r).success = true) ∧
    (∀ (resp fResp : List Char) (r : SmtpResult),
       pyStartsWith resp c252 = true →
       (classify resp fResp r).success = true ∧ (classify resp fResp r).catch_all = true) ∧
    (∀ (resp fResp : List Char) (r : SmtpResult) (p : List Char),
       (p = c550 ∨ p = c551 ∨ p = c553) → pyStartsWith resp p = true →
       (classify resp fResp r).definitive_failure = true) ∧
    (∀ (resp fResp : List Char) (r : SmtpResult),
       (pyStartsWith resp c250 || pyStartsWith resp c251) = true →
       (pyStartsWith fResp c250 || pyStartsWith fResp c251) = true →
       (classify resp fResp r).success = true ∧ (classify resp fResp r).catch_all = true) ∧
    (∀ (resp fResp : List Char) (r : SmtpResult),
       (pyStartsWith resp c250 || pyStartsWith resp c251) = true →
       (pyStartsWith fResp c250 || pyStartsWith fResp c251) = false →
       (classify resp fResp r).catch_all = r.catch_all) ∧
    (∀ (resp fResp mx : List Char) (code : Option (List Char)),
       (pyStartsWith resp c250 || pyStartsWith resp c251) = true →
       ((classify resp fResp { initResult mx with smtp_code := code }).catch_all = true ↔
         (pyStartsWith fResp c250 || pyStartsWith fResp c251) = true)) :=
  ⟨classify_accept,
   fun resp f r h => classify_252 resp f r h,
   fun resp f r p hm hp => (classify_definitive_cases resp f r p hm hp).1,
   fun resp f r h hf => classify_catchall resp f r h hf,
   fun resp f r h hf => classify_no_catchall resp f r h hf,
   fun resp f mx code h => classify_catchall_iff resp f mx code h⟩

/-- C3 witness: the amended classifier facts at concrete replies — a 550
real reply is definitive, and for an accepted real reply the catch-all
flag tracks exactly whether the synthetic reply starts with 250/251
(false here, the synthetic reply being 252). -/
theorem C3_witness :
    pyStartsWith ("550 user unknown".data) c550 = true ∧
    (classify ("550 user unknown".data) ("250 ok".data)
        (initResult ("m".data))).definitive_failure = true ∧
    ((classify ("250 ok".data) ("252 cannot verify".data)
        { initResult ("m".data) with smtp_code := none }).catch_all = true ↔
      (pyStartsWith ("252 cannot verify".data) c250 ||
       pyStartsWith ("252 cannot verify".data) c251) = true) :=
  ⟨by decide,
   C3_amended.2.2.1 ("550 user unknown".data) ("250 ok".data) (initResult ("m".data))
     c550 (Or.inl rfl) (by decide),
   C3_amended.2.2.2.2.2 ("250 ok".data) ("252 cannot verify".data) ("m".data) none
     (by decide)⟩

/-- C2 counterexample: the claim says the socket is closed on every exit
path once the connection opened, including on unexpected mid-conversation
exceptions, and that QUIT is sent whenever earlier steps determined the
outcome; but when the greeting read times out after a successful connect
the handler returns without closing the socket (first pair), and on a bad
greeting — a state whose outcome is already determined — the socket is
closed without any QUIT (second pair). -/
theorem C2_counterexample :
    (Act.connected ∈ (smtp_check ("mx.example".data) greetTimeoutScript).trace ∧
     Act.closed ∉ (smtp_check ("mx.example".data) greetTimeoutScript).trace) ∧
    (Act.closed ∈ (smtp_check ("mx.example".data)
        (okScript ("500 go away".data) ("250 x".data) ("250 x".data)
          ("250 x".data) ("250 x".data))).trace ∧
     Act.sent SmtpCmd.quit ∉ (smtp_check ("mx.example".data)
        (okScript ("500 go away".data) ("250 x".data) ("250 x".data)
          ("250 x".data) ("250 x".data))).trace) := by
  decide

/-- C2 amended: once the connection opened, the socket is explicitly
closed exactly on the exit paths where no exception escapes the
conversation (first conjunct); the bad-greeting abort closes the socket
but sends no QUIT; the MAIL-FROM-rejected and completed-conversation
paths send QUIT (when that send itself succeeds) and then close. -/
theorem C2_amended :
    (∀ (mx : List Char) (h : HostScript),
       Act.closed ∈ (smtp_check mx h).trace ↔
       (Act.connected ∈ (smtp_check mx h).trace ∧ (smtp_check mx h).caught = none)) ∧
    (∀ (mx : List Char) (h : HostScript), badGreetingPath h = true →
       Act.closed ∈ (smtp_check mx h).trace ∧
       Act.sent SmtpCmd.quit ∉ (smtp_check mx h).trace) ∧
    (∀ (mx : List Char) (h : HostScript), mailRejPath h = true →
       h.quitSend = Except.ok () →
       Act.sent SmtpCmd.quit ∈ (smtp_check mx h).trace ∧
       Act.closed ∈ (smtp_check mx h).trace) ∧
    (∀ (mx : List Char) (h : HostScript) (f : List Char), fakeVal h = some f →
       h.quitSend = Except.ok () →
       Act.sent SmtpCmd.quit ∈ (smtp_check mx h).trace ∧
       Act.closed ∈ (smtp_check mx h).trace) := by
  refine ⟨smtp_check_closed, ?_, ?_, ?_⟩
  · intro mx h hbad
    rw [smtp_check_badGreet_tr mx h hbad]
    decide
  · intro mx h hrej hq
    unfold mailRejPath at hrej
    rcases hmv : mailVal h with _ | m
    · rw [hmv] at hrej; simp at hrej
    · rw [hmv] at hrej
      simp at hrej
      obtain ⟨hh, hms, hmr⟩ := mailVal_some h m hmv
      rcases smtp_check_hello mx h hh with hsc | hsc <;>
        rw [hsc, afterHello_mailRej_tr mx h _ m hms hmr hrej hq] <;> decide
  · intro mx h f hfv hq
    obtain ⟨r, hrv, hfs, hfr⟩ := fakeVal_some h f hfv
    obtain ⟨m, hmv, hm250, hrs, hrr⟩ := realVal_some h r hrv
    obtain ⟨hh, hms, hmr⟩ := mailVal_some h m hmv
    rcases smtp_check_hello mx h hh with hsc | hsc <;>
      rw [hsc, afterHello_complete_tr mx h _ m r f hms hmr hm250 hrs hrr hfs hfr hq] <;>
        decide

/-- C2 witness: the bad-greeting path at a concrete script closes the
socket without sending QUIT. -/
theorem C2_witness :
    badGreetingPath (okScript ("500 go away".data) ("250 x".data) ("250 x".data)
        ("250 x".data) ("250 x".data)) = true ∧
    (Act.closed ∈ (smtp_check ("mx.example".data)
        (okScript ("500 go away".data) ("250 x".data) ("250 x".data)
          ("250 x".data) ("250 x".data))).trace ∧
     Act.sent SmtpCmd.quit ∉ (smtp_check ("mx.example".data)
        (okScript ("500 go away".data) ("250 x".data) ("250 x".data)
          ("250 x".data) ("250 x".data))).trace) :=
  ⟨by decide,
   C2_amended.2.1 ("mx.example".data)
     (okScript ("500 go away".data) ("250 x".data) ("250 x".data)
       ("250 x".data) ("250 x".data)) (by decide)⟩

/-- C10: in every probe that reaches the real RCPT TO exchange without an
exception (and whose synthetic send does not itself raise), the synthetic
RCPT TO is sent immediately after the real one on the same connection and
before any QUIT, whatever the real reply `r` is — including a definitive
550-class rejection. -/
theorem C10_synthetic_always_probed (mx : List Char) (h : HostScript) (m r : List Char)
    (hh : helloPassed h = true)
    (hms : h.mailSend = Except.ok ()) (hmr : h.mailRecv = Except.ok m)
    (hm250 : pyStartsWith m c250 = true)
    (hrs : h.rcptSend = Except.ok ()) (hrr : h.rcptRecv = Except.ok r)
    (hfs : h.fakeSend = Except.ok ()) :
    Act.sent SmtpCmd.rcptReal ∈ (smtp_check mx h).trace ∧
    Act.sent SmtpCmd.rcptFake ∈ (smtp_check mx h).trace ∧
    (smtp_check mx h).trace.indexOf (Act.sent SmtpCmd.rcptFake) =
      (smtp_check mx h).trace.indexOf (Act.sent SmtpCmd.rcptReal) + 1 ∧
    (smtp_check mx h).trace.indexOf (Act.sent SmtpCmd.rcptFake) <
      (smtp_check mx h).trace.indexOf (Act.sent SmtpCmd.quit) := by
  rcases smtp_check_hello mx h hh with hsc | hsc
  · rcases afterHello_fake_tr mx h [Act.connected, Act.sent SmtpCmd.ehlo] m r
        hms hmr hm250 hrs hrr hfs with htr | htr <;>
      rw [hsc, htr] <;> decide
  · rcases afterHello_fake_tr mx h [Act.connected, Act.sent SmtpCmd.ehlo, Act.sent SmtpCmd.helo]
        m r hms hmr hm250 hrs hrr hfs with htr | htr <;>
      rw [hsc, htr] <;> decide

/-- C10 witness: the synthetic probe is sent even when the real reply is
a definitive 550 rejection. -/
theorem C10_witness :
    pyStartsWith ("550 user unknown".data) c550 = true ∧
    (Act.sent SmtpCmd.rcptReal ∈ (smtp_check ("mx.example".data)
        (okScript ("220 hi".data) ("250 hi".data) ("250 ok".data)
          ("550 user unknown".data) ("550 no".data))).trace ∧
     Act.sent SmtpCmd.rcptFake ∈ (smtp_check ("mx.example".data)
        (okScript ("220 hi".data) ("250 hi".data) ("250 ok".data)
          ("550 user unknown".data) ("550 no".data))).trace ∧
     (smtp_check ("mx.example".data)
        (okScript ("220 hi".data) ("250 hi".data) ("250 ok".data)
          ("550 user unknown".data) ("550 no".data))).trace.indexOf
        (Act.sent SmtpCmd.rcptFake) =
       (smtp_check ("mx.example".data)
        (okScript ("220 hi".data) ("250 hi".data) ("250 ok".data)
          ("550 user unknown".data) ("550 no".data))).trace.indexOf
        (Act.sent SmtpCmd.rcptReal) + 1 ∧
     (smtp_check ("mx.example".data)
        (okScript ("220 hi".data) ("250 hi".data) ("250 ok".data)
          ("550 user unknown".data) ("550 no".data))).trace.indexOf
        (Act.sent SmtpCmd.rcptFake) <
       (smtp_check ("mx.example".data)
        (okScript ("220 hi".data) ("250 hi".data) ("250 ok".data)
          ("550 user unknown".data) ("550 no".data))).trace.indexOf
        (Act.sent SmtpCmd.quit)) :=
  ⟨by decide,
   C10_synthetic_always_probed ("mx.example".data)
     (okScript ("220 hi".data) ("250 hi".data) ("250 ok".data)
       ("550 user unknown".data) ("550 no".data))
     ("250 ok".data) ("550 user unknown".data)
     (by decide) rfl rfl (by decide) rfl rfl rfl⟩

/-- Reduction of `verify_email` to the host phase when the syntax gate
passes and MX resolution returns records. -/
theorem verify_ok_red (email : List Char) (records : List (Nat × List Char))
    (net : List Char → HostScript) (hstx : matchEmailRegex email = true) :
    verify_email email (DnsResult.ok records) net =
      verifyHosts email (sortMx records) net := by
  unfold verify_email
  rw [if_neg (by simp [hstx])]
  rfl

/-- C4: during host iteration, the first host whose outcome has
`definitive_failure` stops the walk immediately: the terminal result is
`status=invalid`, and the hosts contacted are exactly the inconclusive
ones before it plus that host — no later host in the preference order is
contacted. -/
theorem C4_definitive_short_circuit (email : List Char) (records : List (Nat × List Char))
    (net : List Char → HostScript) (pre rest : List (Nat × List Char)) (x : Nat × List Char)
    (hstx : matchEmailRegex email = true)
    (hsplit : sortMx records = pre ++ x :: rest)
    (hpre : ∀ q ∈ pre, inconclusive (probeOut net q))
    (hdef : (probeOut net x).definitive_failure = true) :
    (verify_email email (DnsResult.ok records) net).1.status = Status.invalid ∧
    (verify_email email (DnsResult.ok records) net).2.contacted =
      pre.map (fun q => q.2) ++ [x.2] := by
  have hns : (probeOut net x).success = false := smtp_check_def x.2 (net x.2) hdef
  have hloop := hostLoop_definitive net x rest pre none hpre hns hdef
  rw [verify_ok_red email records net hstx]
  unfold verifyHosts
  rw [hsplit, hloop]
  simp

/-- C4 witness: two hosts, the preferred one replies 550; the second is
never contacted. -/
theorem C4_witness :
    (verify_email ("a@b.co".data)
        (DnsResult.ok [(10, "a".data), (5, "b".data)])
        (fun hst => if hst == ("b".data) then
            okScript ("220 x".data) ("250 x".data) ("250 x".data)
              ("550 no such user".data) ("550 no".data)
          else errScript SmtpErr.timeout)).1.status = Status.invalid ∧
    (verify_email ("a@b.co".data)
        (DnsResult.ok [(10, "a".data), (5, "b".data)])
        (fun hst => if hst == ("b".data) then
            okScript ("220 x".data) ("250 x".data) ("250 x".data)
              ("550 no such user".data) ("550 no".data)
          else errScript SmtpErr.timeout)).2.contacted =
      List.map (fun q => q.2) ([] : List (Nat × List Char)) ++ [("b".data)] :=
  C4_definitive_short_circuit ("a@b.co".data) [(10, "a".data), (5, "b".data)]
    (fun hst => if hst == ("b".data) then
        okScript ("220 x".data) ("250 x".data) ("250 x".data)
          ("550 no such user".data) ("550 no".data)
      else errScript SmtpErr.timeout)
    [] [(10, "a".data)] (5, "b".data)
    (by decide) (by decide) (by decide) (by decide)

/-- C5: the first host whose outcome is accepted stops the iteration; if
its `catch_all` flag is set the terminal result is `status=risky` with
score 80 (the −20 catch-all penalty applied), else `status=valid` with
score 100 (+20 syntax, +30 MX, +50 SMTP).  The last two conjuncts are the
end-to-end scenarios B and C. -/
theorem C5_first_accept :
    (∀ (email : List Char) (records : List (Nat × List Char))
       (net : List Char → HostScript) (pre rest : List (Nat × List Char))
       (x : Nat × List Char),
       matchEmailRegex email = true →
       sortMx records = pre ++ x :: rest →
       (∀ q ∈ pre, inconclusive (probeOut net q)) →
       (probeOut net x).success = true →
       (verify_email email (DnsResult.ok records) net).2.contacted =
         pre.map (fun q => q.2) ++ [x.2] ∧
       ((probeOut net x).catch_all = true →
         (verify_email email (DnsResult.ok records) net).1.status = Status.risky ∧
         (verify_email email (DnsResult.ok records) net).1.score = 80) ∧
       ((probeOut net x).catch_all = false →
         (verify_email email (DnsResult.ok records) net).1.status = Status.valid ∧
         (verify_email email (DnsResult.ok records) net).1.score = 100)) ∧
    ((verify_email ("user@mail.example".data) (DnsResult.ok [(10, "m".data)])
        (fun _ => okScript ("220 x".data) ("250 x".data) ("250 x".data)
          ("250 ok".data) ("550 no".data))).1.status = Status.valid ∧
     (verify_email ("user@mail.example".data) (DnsResult.ok [(10, "m".data)])
        (fun _ => okScript ("220 x".data) ("250 x".data) ("250 x".data)
          ("250 ok".data) ("550 no".data))).1.score = 100) ∧
    ((verify_email ("user@mail.example".data) (DnsResult.ok [(10, "m".data)])
        (fun _ => okScript ("220 x".data) ("250 x".data) ("250 x".data)
          ("250 ok".data) ("250 ok".data))).1.status = Status.risky ∧
     (verify_email ("user@mail.example".data) (DnsResult.ok [(10, "m".data)])
        (fun _ => okScript ("220 x".data) ("250 x".data) ("250 x".data)
          ("250 ok".data) ("250 ok".data))).1.score = 80) := by
  refine ⟨?_, by decide, by decide⟩
  intro email records net pre rest x hstx hsplit hpre hs
  have hloop := hostLoop_verified net x rest pre none hpre hs
  rw [verify_ok_red email records net hstx]
  unfold verifyHosts
  rw [hsplit, hloop]
  by_cases hca : (probeOut net x).catch_all = true
  · simp [hca, mxResult, stxResult, baseResult]
  · simp [hca, mxResult, stxResult, baseResult]

/-- C5 witness: scenario C (catch-all) through the general theorem. -/
theorem C5_witness :
    (verify_email ("a@b.co".data) (DnsResult.ok [(10, "m".data)])
        (fun _ => okScript ("220 x".data) ("250 x".data) ("250 x".data)
          ("250 ok".data) ("250 ok".data))).2.contacted =
      List.map (fun q => q.2) ([] : List (Nat × List Char)) ++ [("m".data)] ∧
    ((verify_email ("a@b.co".data) (DnsResult.ok [(10, "m".data)])
        (fun _ => okScript ("220 x".data) ("250 x".data) ("250 x".data)
          ("250 ok".data) ("250 ok".data))).1.status = Status.risky ∧
     (verify_email ("a@b.co".data) (DnsResult.ok [(10, "m".data)])
        (fun _ => okScript ("220 x".data) ("250 x".data) ("250 x".data)
          ("250 ok".data) ("250 ok".data))).1.score = 80) :=
  ⟨(C5_first_accept.1 ("a@b.co".data) [(10, "m".data)]
      (fun _ => okScript ("220 x".data) ("250 x".data) ("250 x".data)
        ("250 ok".data) ("250 ok".data))
      [] [] (10, "m".data) (by decide) (by decide) (by decide) (by decide)).1,
   (C5_first_accept.1 ("a@b.co".data) [(10, "m".data)]
      (fun _ => okScript ("220 x".data) ("250 x".data) ("250 x".data)
        ("250 ok".data) ("250 ok".data))
      [] [] (10, "m".data) (by decide) (by decide) (by decide) (by decide)).2.1
     (by decide)⟩

/-- C6: per-host inconclusive outcomes are non-fatal and advance the
iteration: when every host's outcome is inconclusive, all hosts are
contacted in order, the terminal result is `status=unknown`, and
`smtp_response` carries the last host's raw outcome.  The remaining
conjuncts show that each listed kind of outcome is indeed inconclusive:
a connection failure, any exception reaching the handlers (timeouts and
socket errors included), a temporary 450/451/452 reply, and an
unexpected reply. -/
theorem C6_inconclusive_exhaustion :
    (∀ (email : List Char) (records : List (Nat × List Char))
       (net : List Char → HostScript),
       matchEmailRegex email = true →
       sortMx records ≠ [] →
       (∀ q ∈ sortMx records, inconclusive (probeOut net q)) →
       (verify_email email (DnsResult.ok records) net).1.status = Status.unknown ∧
       (verify_email email (DnsResult.ok records) net).2.contacted =
         (sortMx records).map (fun q => q.2) ∧
       (verify_email email (DnsResult.ok records) net).1.smtp_response =
         ((sortMx records).getLast?).map (fun q => probeOut net q)) ∧
    (∀ (mx : List Char) (h : HostScript) (e : SmtpErr), h.connect = Except.error e →
       inconclusive (smtp_check mx h).result) ∧
    (∀ (mx : List Char) (h : HostScript), (smtp_check mx h).caught ≠ none →
       inconclusive (smtp_check mx h).result) ∧
    (∀ (resp fResp mx : List Char) (code : Option (List Char)) (p : List Char),
       (p = c450 ∨ p = c451 ∨ p = c452) → pyStartsWith resp p = true →
       inconclusive (classify resp fResp { initResult mx with smtp_code := code })) ∧
    (∀ (resp fResp mx : List Char) (code : Option (List Char)),
       pyStartsWith resp c250 = false → pyStartsWith resp c251 = false →
       pyStartsWith resp c252 = false → pyStartsWith resp c550 = false →
       pyStartsWith resp c551 = false → pyStartsWith resp c553 = false →
       pyStartsWith resp c450 = false → pyStartsWith resp c451 = false →
       pyStartsWith resp c452 = false →
       inconclusive (classify resp fResp { initResult mx with smtp_code := code })) := by
  refine ⟨?_, ?_, ?_, ?_, ?_⟩
  · intro email records net hstx hne hinc
    have hloop := hostLoop_exhausted net (sortMx records) hne hinc none
    rw [verify_ok_red email records net hstx]
    unfold verifyHosts
    rw [hloop]
    simp [List.isEmpty_iff, hne]
  · intro mx h e hc
    unfold smtp_check
    rw [hc]
    simp [initResult, inconclusive]
  · intro mx h hne
    exact (smtp_check_caught mx h).resolve_left hne
  · intro resp fResp mx code p hmem hp
    have ht := classify_temp resp fResp { initResult mx with smtp_code := code } p hmem hp
    exact ⟨ht.1, ht.2⟩
  · intro resp fResp mx code h250 h251 h252 h550 h551 h553 h450 h451 h452
    have hu := classify_unexpected resp fResp { initResult mx with smtp_code := code }
      h250 h251 h252 h550 h551 h553 h450 h451 h452
    exact ⟨hu.1, hu.2⟩

/-- C6 witness: one host timing out at connect; the call ends unknown and
carries that host's raw outcome. -/
theorem C6_witness :
    (verify_email ("a@b.co".data) (DnsResult.ok [(10, "m".data)])
        (fun _ => errScript SmtpErr.timeout)).1.status = Status.unknown ∧
    (verify_email ("a@b.co".data) (DnsResult.ok [(10, "m".data)])
        (fun _ => errScript SmtpErr.timeout)).2.contacted =
      (sortMx [(10, "m".data)]).map (fun q => q.2) ∧
    (verify_email ("a@b.co".data) (DnsResult.ok [(10, "m".data)])
        (fun _ => errScript SmtpErr.timeout)).1.smtp_response =
      ((sortMx [(10, "m".data)]).getLast?).map
        (fun q => probeOut (fun _ => errScript SmtpErr.timeout) q) :=
  C6_inconclusive_exhaustion.1 ("a@b.co".data) [(10, "m".data)]
    (fun _ => errScript SmtpErr.timeout) (by decide) (by decide) (by decide)

/-- C8: hosts are contacted strictly in ascending `(preference, hostname)`
order: the sorted host list is pairwise ordered by the tuple order, the
contacted list is always an order-preserving initial segment of it, and
on the concrete records `[(10,"a"),(5,"b")]` the engine contacts `"b"`
before `"a"`. -/
theorem C8_host_order :
    (∀ records : List (Nat × List Char), List.Pairwise mxRel (sortMx records)) ∧
    (∀ (email : List Char) (records : List (Nat × List Char))
       (net : List Char → HostScript),
       (verify_email email (DnsResult.ok records) net).2.contacted =
         ((sortMx records).map (fun q => q.2)).take
           ((verify_email email (DnsResult.ok records) net).2.contacted).length) ∧
    ((verify_email ("a@b.co".data) (DnsResult.ok [(10, "a".data), (5, "b".data)])
        (fun _ => errScript SmtpErr.timeout)).2.contacted =
      ["b".data, "a".data]) := by
  refine ⟨sortMx_sorted, ?_, by decide⟩
  intro email records net
  by_cases hstx : matchEmailRegex email = false
  · unfold verify_email
    simp [hstx]
  · have hstx2 : matchEmailRegex email = true := by
      cases hcc : matchEmailRegex email
      · exact absurd hcc hstx
      · rfl
    rw [verify_ok_red email records net hstx2]
    unfold verifyHosts
    by_cases hemp : (sortMx records).isEmpty = true
    · simp [hemp]
    · rw [if_neg hemp]
      have ht := hostLoop_take net (sortMx records) none
      rcases hl : hostLoop net none (sortMx records) with ⟨lo, contacted⟩
      rw [hl] at ht
      simp only at ht
      rcases lo with out | out | lastr
      · by_cases hca : out.catch_all = true
        · simpa [hca] using ht
        · simpa [hca] using ht
      · simpa using ht
      · simpa using ht

/-- C8 witness: the contacted list is an initial segment of the sorted
host list, at a concrete run. -/
theorem C8_witness :
    (verify_email ("a@b.co".data) (DnsResult.ok [(10, "a".data), (5, "b".data)])
        (fun _ => errScript SmtpErr.timeout)).2.contacted =
      ((sortMx [(10, "a".data), (5, "b".data)]).map (fun q => q.2)).take
        ((verify_email ("a@b.co".data) (DnsResult.ok [(10, "a".data), (5, "b".data)])
            (fun _ => errScript SmtpErr.timeout)).2.contacted).length :=
  C8_host_order.2.1 ("a@b.co".data) [(10, "a".data), (5, "b".data)]
    (fun _ => errScript SmtpErr.timeout)

/-- C9: the public entry point never raises: the DNS `except` clauses and
the conversation's `except` clauses cover every modelled exception (the
embedding is total), every returned result carries a nonempty message
(first conjunct), so does every per-host conversation result (second
conjunct), and the one remaining raise site — `email.split('@')[1]`,
which would raise `IndexError` on a string without `'@'` — is unreachable
because every string passing the syntax gate contains `'@'` (third
conjunct). -/
theorem C9_no_exception :
    (∀ (email : List Char) (dns : DnsResult) (net : List Char → HostScript),
       (verify_email email dns net).1.message ≠ []) ∧
    (∀ (mx : List Char) (h : HostScript), (smtp_check mx h).result.message ≠ []) ∧
    (∀ email : List Char, matchEmailRegex email = true → '@' ∈ email) := by
  refine ⟨?_, smtp_check_message_ne, matchEmailRegex_at⟩
  intro email dns net
  have n1 : msgBadStx ≠ [] := by decide
  have n2 : msgNoMx ≠ [] := by decide
  have n3 : msgDnsFail ≠ [] := by decide
  have n4 : msgNoMxVerify ≠ [] := by decide
  have n5 : msgSmtpUnknown ≠ [] := by decide
  have n6 : msgValidOk ≠ [] := by decide
  have n7 : msgRisky ≠ [] := by decide
  by_cases hstx : matchEmailRegex email = false
  · unfold verify_email
    simp [hstx, n1]
  · have hstx2 : matchEmailRegex email = true := by
      cases hcc : matchEmailRegex email
      · exact absurd hcc hstx
      · rfl
    cases dns with
    | noAnswer =>
      unfold verify_email verifyWithDns
      simp [hstx2, List.append_eq_nil, n2]
    | nxdomain =>
      unfold verify_email verifyWithDns
      simp [hstx2, List.append_eq_nil, n2]
    | noNameservers =>
      unfold verify_email verifyWithDns
      simp [hstx2, List.append_eq_nil, n2]
    | otherErr m =>
      unfold verify_email verifyWithDns
      simp [hstx2, List.append_eq_nil, n3]
    | ok records =>
      rw [verify_ok_red email records net hstx2]
      unfold verifyHosts
      by_cases hemp : (sortMx records).isEmpty = true
      · simp [hemp, n4]
      · rw [if_neg hemp]
        rcases hl : hostLoop net none (sortMx records) with ⟨lo, contacted⟩
        rcases lo with out | out | lastr
        · by_cases hca : out.catch_all = true
          · simp [hca, n7]
          · simp [hca, n6]
        · obtain ⟨q, hq⟩ := hostLoop_definitive_mem net (sortMx records) none out
            (by rw [hl])
          simp only [hq]
          simpa [probeOut] using smtp_check_message_ne q.2 (net q.2)
        · simp [n5]

/-- C9 witness: a concrete run returns a nonempty message, and a concrete
gate-passing address contains `'@'`. -/
theorem C9_witness :
    (verify_email ("a@b.co".data) DnsResult.noAnswer
        (fun _ => errScript SmtpErr.timeout)).1.message ≠ [] ∧
    '@' ∈ ("a@b.co".data) :=
  ⟨C9_no_exception.1 ("a@b.co".data) DnsResult.noAnswer (fun _ => errScript SmtpErr.timeout),
   C9_no_exception.2.2 ("a@b.co".data) (by decide)⟩
